import Mathlib

/-!
Shallow embedding of the Medichain access-control core:
* the in-browser ABAC engine (`src/utils/abacEngine.js`),
* the session-level security provider (`SecurityContext.js`),
* the zero-knowledge-style commitment utilities (`src/utils/zkProofs.js`),
* the `SecureAccessControl` Solidity contract.

JavaScript objects holding subject/resource attributes are embedded as
association lists from string keys to primitive values (`Atom`), with JS
truthiness made explicit.  Clock reads (`Date.now()`, `new Date().getHours()`,
`block.timestamp`) are passed as explicit parameters.  The SHA-256 digest
used by the commitment utilities is embedded as an abstract deterministic
function parameter `H : String → String`.
-/

namespace Medichain

/-- A JS primitive value as it occurs in subject/resource attributes:
either a string or a (small integer) number. -/
inductive Atom where
  | str (s : String)
  | num (n : Int)
deriving DecidableEq, Repr

/-- JS truthiness of an attribute value: the empty string and the number 0
are falsy, everything else is truthy. -/
def Atom.truthy : Atom → Bool
  | .str s => s ≠ ""
  | .num n => n ≠ 0

/-- A JS object used as an attribute bag, embedded as an association list;
`List.lookup` returns the first binding, matching JS property lookup with
later spreads placed in front. -/
abbrev AttrMap := List (String × Atom)

/-- JS truthiness of a property read that may be `undefined`. -/
def optTruthy : Option Atom → Bool
  | some a => a.truthy
  | none => false

/-- JS `a || b` on attribute reads (`a` falsy ⇒ take `b`). -/
def jsOr (a b : Option Atom) : Option Atom :=
  if optTruthy a then a else b

/-- JS `a || d` where the fallback `d` is a present value. -/
def jsOrDefault (a : Option Atom) (d : Atom) : Atom :=
  match a with
  | some v => if v.truthy then v else d
  | none => d

/-!  ## Policy matchers (`abacEngine.js`)

A policy criterion value is the string sentinel `'*'`, an array, or a
scalar, dispatched exactly as `matchSubject`/`matchResource`/`matchAction`
do. -/

/-- One criterion value inside `policy.subjects` / `policy.resources` /
`policy.actions`. -/
inductive MatchVal where
  | star
  | atom (a : Atom)
  | arr (l : List Atom)
deriving DecidableEq, Repr

/-- One `[key, value]` entry of a criteria object, checked against the
attribute bag: `'*'` always matches, an array requires membership of the
attribute value, a scalar requires strict equality (`undefined` fails both
membership and equality against a present scalar). -/
def matchEntry (attrs : AttrMap) (kv : String × MatchVal) : Bool :=
  match kv.2 with
  | .star => true
  | .arr l =>
      match attrs.lookup kv.1 with
      | some a => l.any (fun x => x = a)
      | none => false
  | .atom v => attrs.lookup kv.1 = some v

/-- Source `matchSubject(policySubjects, subjectAttrs)`: a missing criteria object
matches everything; otherwise every entry must match. -/
def matchSubject (policySubjects : Option (List (String × MatchVal)))
    (subjectAttrs : AttrMap) : Bool :=
  match policySubjects with
  | none => true
  | some l => l.all (matchEntry subjectAttrs)

/-- Source `matchResource(policyResources, resourceAttrs)`: same dispatch as
`matchSubject`. -/
def matchResource (policyResources : Option (List (String × MatchVal)))
    (resourceAttrs : AttrMap) : Bool :=
  match policyResources with
  | none => true
  | some l => l.all (matchEntry resourceAttrs)

/-- Source `matchAction(policyActions, requestedAction)`. -/
def matchAction (policyActions : MatchVal) (requestedAction : String) : Bool :=
  match policyActions with
  | .star => true
  | .arr l => l.any (fun x => x = Atom.str requestedAction)
  | .atom a => a = Atom.str requestedAction

/-!  ## Conditions and evaluation context -/

/-- The `conditions` object of a policy.  Each field is `none` when the
key is absent (`undefined`) in the source object.  The source key
`unless` is a Lean keyword, so the field is named `unlessCond`. -/
structure Conditions where
  ownerMatch : Option Bool := none
  hasPermission : Option Bool := none
  emergencyDeclared : Option Bool := none
  sensitivityMax : Option Int := none
  timeRange : Option (Int × Int) := none
  unlessCond : Option (List (String × Atom)) := none
deriving DecidableEq, Repr

/-- The `fullContext` object built by `evaluateAccess`, merged from the
caller-supplied context plus derived facts. -/
structure Context where
  permissionGranted : Bool
  isEmergency : Bool
  subject : Option AttrMap
  subjectId : Option Atom
  resourceOwnerId : Option Atom
  resourceSensitivity : Atom
deriving DecidableEq, Repr

/-- Numeric comparison `context.resourceSensitivity > conditions.sensitivityMax`;
a non-numeric sensitivity compares as NaN in JS, i.e. false (such values do
not occur in the system). -/
def sensGt (a : Atom) (bound : Int) : Bool :=
  match a with
  | .num n => bound < n
  | .str _ => false

/-- Source `evaluateConditions(conditions, context)` with the wall-clock hour made
explicit.  The checks run in source order, each returning `false` early on
failure.  The `unless` clause is checked last and returns `true` both when
an unless-key matches (source comment: "Unless condition met, skip other
checks") and on fall-through. -/
def evaluateConditions (hour : Int) (conditions : Option Conditions)
    (context : Context) : Bool :=
  match conditions with
  | none => true
  | some c =>
    if (match c.ownerMatch with
        | some b => b && context.subjectId ≠ context.resourceOwnerId
        | none => false) then false
    else if (match c.hasPermission with
        | some b => b && !context.permissionGranted
        | none => false) then false
    else if (match c.emergencyDeclared with
        | some b => b && !context.isEmergency
        | none => false) then false
    else if (match c.sensitivityMax with
        | some m => sensGt context.resourceSensitivity m
        | none => false) then false
    else if (match c.timeRange with
        | some r => hour < r.1 || r.2 < hour
        | none => false) then false
    else
      match c.unlessCond with
      | some kvs =>
          if kvs.any (fun kv =>
              match context.subject with
              | some s => s.lookup kv.1 = some kv.2
              | none => false)
          then true  -- unless condition met, skip other checks
          else true
      | none => true

/-!  ## Policies, engine state, decisions -/

/-- An ABAC policy record.  `effect` is the raw string (`"allow"` /
`"deny"`) as compared by `evaluateAccess`. -/
structure Policy where
  id : String
  description : String
  effect : String
  subjects : Option (List (String × MatchVal)) := none
  resources : Option (List (String × MatchVal)) := none
  actions : MatchVal := .star
  conditions : Option Conditions := none
deriving DecidableEq, Repr

/-- The decision object returned by `evaluateAccess`
(`{ allowed, reason, policy }`). -/
structure Decision where
  allowed : Bool
  reason : String
  policy : Option String
deriving DecidableEq, Repr

/-- One entry of the engine's `auditLog` array. -/
structure AuditEntry where
  timestamp : String
  subject : Option Atom
  resource : Option Atom
  action : String
  decision : String
  policy : Option String
  reason : String
deriving DecidableEq, Repr

/-- The mutable state of an `ABACEngine` instance. -/
structure EngineState where
  policies : List Policy
  auditLog : List AuditEntry
deriving DecidableEq, Repr

/-- An access request as passed to `evaluateAccess`:
`{ subject, resource, action, context }`, the context part holding the two
boolean facts every call site supplies. -/
structure Request where
  subject : AttrMap
  resource : AttrMap
  action : String
  permissionGranted : Bool := false
  isEmergency : Bool := false
deriving DecidableEq, Repr

/-- Derived fact `subject.id || subject.hhNumber`. -/
def subjectIdOf (subject : AttrMap) : Option Atom :=
  jsOr (subject.lookup "id") (subject.lookup "hhNumber")

/-- The `fullContext` object built at the top of `evaluateAccess`:
caller context spread first, then `subject`, `subjectId`
(`subject.id || subject.hhNumber`), `resourceOwnerId`
(`resource.ownerId || resource.patientId`) and `resourceSensitivity`
(`resource.sensitivity || SENSITIVITY.INTERNAL`, INTERNAL = 1). -/
def mkFullContext (req : Request) : Context where
  permissionGranted := req.permissionGranted
  isEmergency := req.isEmergency
  subject := some req.subject
  subjectId := subjectIdOf req.subject
  resourceOwnerId := jsOr (req.resource.lookup "ownerId") (req.resource.lookup "patientId")
  resourceSensitivity := jsOrDefault (req.resource.lookup "sensitivity") (.num 1)

/-- The conjunction tested inside the policy loop of `evaluateAccess`. -/
def policyMatches (hour : Int) (req : Request) (context : Context)
    (policy : Policy) : Bool :=
  matchSubject policy.subjects req.subject
    && matchResource policy.resources req.resource
    && matchAction policy.actions req.action
    && evaluateConditions hour policy.conditions context

/-- The matched-policy list collected by the loop, in store (insertion)
order. -/
def matchedPolicies (hour : Int) (st : EngineState) (req : Request) : List Policy :=
  st.policies.filter (policyMatches hour req (mkFullContext req))

/-- The deny-overrides combination step: first matching deny, else first
matching allow, else the default decision. -/
def combineDecision (matched : List Policy) : Decision :=
  match matched.find? (fun p => p.effect = "deny") with
  | some denyPolicy =>
      { allowed := false, reason := denyPolicy.description, policy := some denyPolicy.id }
  | none =>
      match matched.find? (fun p => p.effect = "allow") with
      | some allowPolicy =>
          { allowed := true, reason := allowPolicy.description, policy := some allowPolicy.id }
      | none => { allowed := false, reason := "No matching policy found", policy := none }

/-- Source `ABACEngine.evaluateAccess(request)`: evaluate all policies, combine
with deny-overrides, push one audit entry, return the decision together
with the updated engine state.  `hour` is the wall-clock hour read by
time-range conditions and `nowISO` the audit timestamp string. -/
def evaluateAccess (hour : Int) (nowISO : String) (st : EngineState)
    (req : Request) : Decision × EngineState :=
  let decision := combineDecision (matchedPolicies hour st req)
  let entry : AuditEntry :=
    { timestamp := nowISO
      subject := subjectIdOf req.subject
      resource := req.resource.lookup "type"
      action := req.action
      decision := if decision.allowed then "ALLOW" else "DENY"
      policy := decision.policy
      reason := decision.reason }
  (decision, { st with auditLog := st.auditLog ++ [entry] })

/-!  ## Default policies (`defaultPolicies` in `abacEngine.js`) -/

/-- Default policy `patient-own-records`. -/
def patientOwnRecords : Policy where
  id := "patient-own-records"
  description := "Patients can access their own records"
  effect := "allow"
  subjects := some [("role", .atom (.str "patient"))]
  resources := some [("type", .arr [.str "patient_record", .str "medical_history", .str "lab_results"])]
  actions := .arr [.str "read", .str "download"]
  conditions := some { ownerMatch := some true }

/-- Default policy `patient-share-records`. -/
def patientShareRecords : Policy where
  id := "patient-share-records"
  description := "Patients can share their records with others"
  effect := "allow"
  subjects := some [("role", .atom (.str "patient"))]
  resources := some [("type", .arr [.str "patient_record", .str "medical_history"])]
  actions := .arr [.str "share"]
  conditions := some { ownerMatch := some true }

/-- Default policy `doctor-read-with-permission`. -/
def doctorReadWithPermission : Policy where
  id := "doctor-read-with-permission"
  description := "Doctors can read patient records when permission granted"
  effect := "allow"
  subjects := some [("role", .atom (.str "doctor"))]
  resources := some [("type", .arr [.str "patient_record", .str "medical_history", .str "lab_results"])]
  actions := .arr [.str "read"]
  conditions := some { hasPermission := some true }

/-- Default policy `doctor-write-prescription`. -/
def doctorWritePrescription : Policy where
  id := "doctor-write-prescription"
  description := "Doctors can create prescriptions for permitted patients"
  effect := "allow"
  subjects := some [("role", .atom (.str "doctor"))]
  resources := some [("type", .arr [.str "prescription"])]
  actions := .arr [.str "write", .str "update"]
  conditions := some { hasPermission := some true }

/-- Default policy `diagnostic-upload`. -/
def diagnosticUpload : Policy where
  id := "diagnostic-upload"
  description := "Diagnostic centers can upload diagnostic reports"
  effect := "allow"
  subjects := some [("role", .atom (.str "diagnostic"))]
  resources := some [("type", .arr [.str "diagnostic_report", .str "lab_results"])]
  actions := .arr [.str "write"]
  conditions := some { hasPermission := some true }

/-- Default policy `emergency-access`. -/
def emergencyAccessPolicy : Policy where
  id := "emergency-access"
  description := "Emergency personnel can access critical records"
  effect := "allow"
  subjects := some [("role", .atom (.str "emergency"))]
  resources := some [("type", .arr [.str "patient_record", .str "medical_history"])]
  actions := .arr [.str "read"]
  conditions := some { emergencyDeclared := some true, sensitivityMax := some 2 }

/-- Default policy `deny-restricted-default` (RESTRICTED = 3, ADMIN = "admin"). -/
def denyRestrictedDefault : Policy where
  id := "deny-restricted-default"
  description := "Deny access to restricted data by default"
  effect := "deny"
  subjects := some [("role", .star)]
  resources := some [("sensitivity", .atom (.num 3))]
  actions := .star
  conditions := some { unlessCond := some [("role", .str "admin")] }

/-- The policy list an `ABACEngine` starts with. -/
def defaultPolicies : List Policy :=
  [patientOwnRecords, patientShareRecords, doctorReadWithPermission,
   doctorWritePrescription, diagnosticUpload, emergencyAccessPolicy,
   denyRestrictedDefault]

/-- A fresh engine: default policies and an empty audit log. -/
def initialEngine : EngineState where
  policies := defaultPolicies
  auditLog := []

/-!  ## Session layer (`SecurityProvider` in `SecurityContext.js`) -/

/-- One entry of the session-level `accessLog`. -/
structure SessionLogEntry where
  timestamp : String
  user : Option Atom
  resource : Atom
  owner : Atom
  action : String
  decision : Bool
  reason : String
deriving DecidableEq, Repr

/-- The provider state: the authenticated user (if any), the `permissions`
object keyed by `"grantor:grantee"` strings, and the bounded `accessLog`. -/
structure SessionState where
  currentUser : Option AttrMap
  permissions : List (String × Bool)
  accessLog : List SessionLogEntry
deriving DecidableEq, Repr

/-- JS `array.slice(-n)`: the last `n` elements (the whole array when it is
shorter). -/
def lastN (n : Nat) (l : List α) : List α :=
  l.drop (l.length - n)

/-- The subject object `{ role: currentUser.role, id: currentUser.hhNumber,
...currentUser }`: the spread comes last, so the user's own bindings take
precedence; with first-binding lookup that is the user's entries in front. -/
def sessionSubject (user : AttrMap) : AttrMap :=
  user
    ++ (match user.lookup "role" with | some v => [("role", v)] | none => [])
    ++ (match user.lookup "hhNumber" with | some v => [("id", v)] | none => [])

/-- Options object accepted by the session `canAccess`. -/
structure AccessOptions where
  sensitivity : Option Atom := none
  hasPermission : Bool := false
  isEmergency : Bool := false
deriving DecidableEq, Repr

/-- JS truthy read of `permissions[resourceOwnerId]`. -/
def permLookupTruthy (permissions : List (String × Bool)) (key : String) : Bool :=
  match permissions.lookup key with
  | some b => b
  | none => false

/-- Source `SecurityProvider.canAccess(resourceType, resourceOwnerId, action,
options)`.  With no authenticated user it returns
`{ allowed: false, reason: 'User not authenticated' }` immediately — the
engine is not consulted (no audit entry) and the session log is untouched.
Otherwise it builds the request, calls `evaluateAccess`, and appends to the
session log keeping only the previous 99 entries (`prev.slice(-99)`). -/
def sessionCanAccess (hour : Int) (nowISO : String)
    (engine : EngineState) (sess : SessionState)
    (resourceType : Atom) (resourceOwnerId : Atom) (action : String)
    (options : AccessOptions) : Decision × EngineState × SessionState :=
  match sess.currentUser with
  | none =>
      ({ allowed := false, reason := "User not authenticated", policy := none },
       engine, sess)
  | some user =>
      let ownerKey := match resourceOwnerId with
        | .str s => s
        | .num n => toString n
      let req : Request :=
        { subject := sessionSubject user
          resource :=
            [("type", resourceType), ("ownerId", resourceOwnerId),
             ("sensitivity", jsOrDefault options.sensitivity (.num 1))]
          action := action
          permissionGranted :=
            permLookupTruthy sess.permissions ownerKey || options.hasPermission
          isEmergency := options.isEmergency }
      let (decision, engine') := evaluateAccess hour nowISO engine req
      let entry : SessionLogEntry :=
        { timestamp := nowISO
          user := user.lookup "hhNumber"
          resource := resourceType
          owner := resourceOwnerId
          action := action
          decision := decision.allowed
          reason := decision.reason }
      (decision, engine',
       { sess with accessLog := lastN 99 sess.accessLog ++ [entry] })

/-- The template string `` `${currentUser.hhNumber}:${targetUserId}` ``
keying the session `permissions` object. -/
def permKey (user : AttrMap) (targetUserId : String) : String :=
  (match user.lookup "hhNumber" with
   | some (.str s) => s
   | some (.num n) => toString n
   | none => "undefined") ++ ":" ++ targetUserId

/-- Source `SecurityProvider.grantPermission(targetUserId)`: returns `false` when
unauthenticated, otherwise sets `permissions["hhNumber:target"] = true`. -/
def sessionGrantPermission (sess : SessionState) (targetUserId : String) :
    Bool × SessionState :=
  match sess.currentUser with
  | none => (false, sess)
  | some user =>
      (true, { sess with permissions :=
        (permKey user targetUserId, true) ::
          sess.permissions.filter (fun kv => kv.1 ≠ permKey user targetUserId) })

/-- Source `SecurityProvider.revokePermission(targetUserId)`: returns `false` when
unauthenticated; otherwise `delete newPerms[key]` physically removes the
binding and the call returns `true` (also when no binding existed). -/
def sessionRevokePermission (sess : SessionState) (targetUserId : String) :
    Bool × SessionState :=
  match sess.currentUser with
  | none => (false, sess)
  | some user =>
      (true, { sess with permissions :=
        sess.permissions.filter (fun kv => kv.1 ≠ permKey user targetUserId) })

/-!  ## Commitment utilities (`zkProofs.js`)

`hash` is SHA-256 over the UTF-8 encoding, rendered as lowercase hex.  We
embed it as an abstract deterministic function `H : String → String`; every
statement below is proved for all such `H`, hence in particular for
SHA-256. -/

/-- The preimage string `` `${value}||${blinding}` `` hashed by
`createCommitment` / `verifyCommitment`. -/
def commitPreimage (value blinding : String) : String :=
  value ++ "||" ++ blinding

/-- Result object of `createCommitment`. -/
structure CommitResult where
  commitment : String
  blindingFactor : String
deriving DecidableEq, Repr

/-- Source `createCommitment(value, blindingFactor = null)`: the blinding factor is
`blindingFactor || generateBlindingFactor()`, so a missing — or empty, the
empty string being falsy — supplied factor is replaced by the fresh random
one (`fresh`, made explicit here). -/
def createCommitment (H : String → String) (fresh : String)
    (value : String) (blindingFactor : Option String) : CommitResult :=
  let blinding :=
    match blindingFactor with
    | some b => if b = "" then fresh else b
    | none => fresh
  { commitment := H (commitPreimage value blinding), blindingFactor := blinding }

/-- Source `verifyCommitment(value, blindingFactor, commitment)`: recompute and
compare the full digest for equality. -/
def verifyCommitment (H : String → String)
    (value blindingFactor commitment : String) : Bool :=
  H (commitPreimage value blindingFactor) = commitment

/-- A proof object as inspected by `isProofValid`: only the `timestamp` and
`expiresAt` properties matter, each possibly absent (`none`).  Times are
milliseconds since the epoch. -/
structure ZKProof where
  timestamp : Option Nat := none
  expiresAt : Option Nat := none
deriving DecidableEq, Repr

/-- JS truthiness of a numeric property: absent or `0` is falsy. -/
def natTruthy : Option Nat → Bool
  | some n => n ≠ 0
  | none => false

/-- Source `isProofValid(proof)` with `Date.now()` passed as `now`:
`!proof || !proof.timestamp` ⇒ false; truthy `expiresAt` with
`now > expiresAt` ⇒ false; falsy `expiresAt` with
`now - timestamp > 3600000` ⇒ false; otherwise true.  (JS subtraction can
go negative where `Nat` truncates to 0; both fail the `> 3600000` test.) -/
def isProofValid (now : Nat) (proof : Option ZKProof) : Bool :=
  match proof with
  | none => false
  | some p =>
      if !natTruthy p.timestamp then false
      else if natTruthy p.expiresAt && decide (p.expiresAt.getD 0 < now) then false
      else if !natTruthy p.expiresAt && decide (3600000 < now - p.timestamp.getD 0) then false
      else true

/-!  ## `SecureAccessControl` contract (Solidity)

Reverts (`require` failures) are embedded as `Except String`; mappings as
association lists with the Solidity zero-value default. -/

/-- Solidity `enum Role`. -/
inductive SRole where
  | NONE | PATIENT | DOCTOR | DIAGNOSTIC | ADMIN | EMERGENCY
deriving DecidableEq, Repr

/-- Solidity `struct UserAttributes` (the fields the embedded functions
read). -/
structure UserAttributes where
  role : SRole := .NONE
  clearanceLevel : Nat := 0
  isActive : Bool := false
  registeredAt : Nat := 0
deriving DecidableEq, Repr

/-- Solidity `struct Permission`; `expiresAt = 0` means no expiry. -/
structure Permission where
  granted : Bool := false
  grantedAt : Nat := 0
  expiresAt : Nat := 0
  proofCommitment : String := ""
deriving DecidableEq, Repr

/-- Contract storage touched by the permission functions. -/
structure ContractState where
  userAttributes : List (String × UserAttributes) := []
  permissions : List ((String × String) × Permission) := []
deriving DecidableEq, Repr

/-- Mapping read `userAttributes[id]` (zero-initialized default). -/
def getUser (st : ContractState) (id : String) : UserAttributes :=
  (st.userAttributes.lookup id).getD {}

/-- Mapping read `permissions[patient][doctor]` (zero-initialized default). -/
def getPerm (st : ContractState) (patient doctor : String) : Permission :=
  ((st.permissions.find? (fun kv => kv.1 = (patient, doctor))).map Prod.snd).getD {}

/-- Mapping write `permissions[patient][doctor] = perm`. -/
def setPerm (st : ContractState) (patient doctor : String) (perm : Permission) :
    ContractState :=
  { st with permissions :=
      ((patient, doctor), perm) ::
        st.permissions.filter (fun kv => kv.1 ≠ (patient, doctor)) }

/-- Source `grantPermissionZK(_patientNumber, _doctorNumber, _duration,
_proofCommitment)` at block time `now`: the `isActive` modifier and the two
role `require`s run in order, then the permission is overwritten with
`expiresAt = _duration > 0 ? now + _duration : 0`. -/
def grantPermissionZK (st : ContractState) (now : Nat)
    (patientNumber doctorNumber : String) (duration : Nat)
    (proofCommitment : String) : Except String ContractState :=
  if !(getUser st patientNumber).isActive then .error "User not active"
  else if (getUser st patientNumber).role ≠ SRole.PATIENT then
    .error "Only patients can grant permissions"
  else if (getUser st doctorNumber).role ≠ SRole.DOCTOR ∧
      (getUser st doctorNumber).role ≠ SRole.DIAGNOSTIC then
    .error "Can only grant to healthcare providers"
  else
    let expiresAt := if duration > 0 then now + duration else 0
    .ok (setPerm st patientNumber doctorNumber
      { granted := true, grantedAt := now, expiresAt := expiresAt,
        proofCommitment := proofCommitment })

/-- Source `revokePermission(_patientNumber, _doctorNumber)`: the `isActive`
modifier, then `require(permissions[p][d].granted, "Permission not found")`,
then `granted = false` on the stored record (the record itself is kept). -/
def revokePermission (st : ContractState) (patientNumber doctorNumber : String) :
    Except String ContractState :=
  if !(getUser st patientNumber).isActive then .error "User not active"
  else if !(getPerm st patientNumber doctorNumber).granted then
    .error "Permission not found"
  else
    .ok (setPerm st patientNumber doctorNumber
      { getPerm st patientNumber doctorNumber with granted := false })

/-- Source `isPermissionValid(_patientNumber, _doctorNumber)` at block time `now`:
false when not granted, false when `expiresAt > 0 && now > expiresAt`,
true otherwise. -/
def isPermissionValid (st : ContractState) (now : Nat)
    (patientNumber doctorNumber : String) : Bool :=
  let perm := getPerm st patientNumber doctorNumber
  if !perm.granted then false
  else if perm.expiresAt > 0 && decide (perm.expiresAt < now) then false
  else true

/-!  ## Spec-side predicates and concrete fixtures used by the claims -/

/-- Proof-freshness exactly as the claim states it: invalid with no
timestamp, invalid with an explicit `expiresAt` lying in the past, invalid
with no explicit `expiresAt` once more than one hour has elapsed since the
timestamp, valid otherwise.  Compared against `isProofValid`. -/
def isProofValidSpec (now : Nat) (proof : Option ZKProof) : Bool :=
  match proof with
  | none => false
  | some p =>
      match p.timestamp with
      | none => false
      | some t =>
          match p.expiresAt with
          | some e => decide (now ≤ e)
          | none => decide (now - t ≤ 3600000)

/-- Proof-freshness as amended by the JS-truthiness counterexamples: a
timestamp that is absent or zero is invalid; an `expiresAt` that is absent
or zero falls back to the one-hour window from the timestamp; a nonzero
`expiresAt` strictly in the past is invalid; everything else is valid. -/
def isProofValidAmended (now : Nat) (proof : Option ZKProof) : Bool :=
  match proof with
  | none => false
  | some p =>
      match p.timestamp with
      | none => false
      | some t =>
          if t = 0 then false
          else
            match p.expiresAt with
            | some e => if e = 0 then decide (now - t ≤ 3600000) else decide (now ≤ e)
            | none => decide (now - t ≤ 3600000)

/-- A policy matching every request with effect `allow`. -/
def allowEverything : Policy where
  id := "allow-everything"
  description := "allow everything"
  effect := "allow"

/-- A policy matching every request with effect `deny`. -/
def denyEverything : Policy where
  id := "deny-everything"
  description := "deny everything"
  effect := "deny"

/-- Concrete scenario-2 store: only `patient-own-records` is loaded. -/
def scenario2Store : EngineState where
  policies := [patientOwnRecords]
  auditLog := []

/-- Concrete scenario-2 request: doctor `D1` reading a record owned by
`P1`, no permission granted. -/
def scenario2Request : Request where
  subject := [("id", .str "D1"), ("role", .str "doctor")]
  resource := [("type", .str "patient_record"), ("ownerId", .str "P1")]
  action := "read"

/-- An admin subject requesting read access to a RESTRICTED
(sensitivity 3) record under the default policy set. -/
def adminRestrictedRequest : Request where
  subject := [("id", .str "A1"), ("role", .str "admin")]
  resource := [("type", .str "patient_record"), ("ownerId", .str "P1"),
               ("sensitivity", .num 3)]
  action := "read"

/-- Contract fixture: `P1` an active patient, `D1` an active doctor, no
permission relations. -/
def contractFixture : ContractState where
  userAttributes :=
    [("P1", { role := .PATIENT, isActive := true, registeredAt := 1 }),
     ("D1", { role := .DOCTOR, isActive := true, registeredAt := 1 })]
  permissions := []

/-- A session with an authenticated patient `P1` and empty logs. -/
def authSession : SessionState where
  currentUser := some [("hhNumber", .str "P1"), ("role", .str "patient")]
  permissions := []
  accessLog := []

/-- One authenticated session `canAccess` call with fixed arguments,
threading the engine and session state (used to iterate requests). -/
def stepSession (p : EngineState × SessionState) : EngineState × SessionState :=
  ((sessionCanAccess 10 "2024-01-01T00:00:00Z" p.1 p.2
      (.str "patient_record") (.str "P1") "read" {}).2)

/-- Starting point for iterated session calls: an engine with an empty
policy list and audit log, and the authenticated session. -/
def initialIterationState : EngineState × SessionState :=
  ({ policies := [], auditLog := [] }, authSession)

/-- Contract fixture after `grantPermissionZK("P1","D1",60,"pf")` at block
time 1000 (so `expiresAt = 1060`). -/
def contractWithGrant : ContractState :=
  setPerm contractFixture "P1" "D1"
    { granted := true, grantedAt := 1000, expiresAt := 1060, proofCommitment := "pf" }

/-- Contract fixture holding a revoked (granted = false) relation record. -/
def contractRevoked : ContractState :=
  setPerm contractFixture "P1" "D1"
    { granted := false, grantedAt := 1000, expiresAt := 1060, proofCommitment := "pf" }

/-!  ## General lemmas about the embedded operations -/

/-- Projecting the decision out of `evaluateAccess` is exactly the
deny-overrides combination of the matched policies. -/
theorem evaluateAccess_fst (hour : Int) (nowISO : String) (st : EngineState)
    (req : Request) :
    (evaluateAccess hour nowISO st req).1 =
      combineDecision (matchedPolicies hour st req) := rfl

/-- Deleting a key from an association list makes its lookup `none`. -/
theorem lookup_filter_key_eq_none {β : Type} (l : List (String × β)) (k : String) :
    (l.filter (fun kv => kv.1 ≠ k)).lookup k = none := by
  induction l with
  | nil => rfl
  | cons hd tl ih =>
      by_cases h : hd.1 = k
      · simpa [List.filter_cons, h] using ih
      · have hne : (k == hd.1) = false := by
          simp [beq_eq_false_iff_ne]
          exact fun he => h he.symm
        simp [List.filter_cons, h, List.lookup, hne, ih]
        exact fun a b _ hak hka => hak hka.symm

/-- Reading back the permission just written by `setPerm`. -/
theorem getPerm_setPerm (st : ContractState) (p d : String) (perm : Permission) :
    getPerm (setPerm st p d perm) p d = perm := by
  simp [getPerm, setPerm, List.find?]

/-!  ## C2 — the `unless` clause does not negate -/

/-- C2 (code evaluated at the failing input): with the default
`deny-restricted-default` policy, whose only condition is
`unless: { role: 'admin' }`, a subject whose `role` equals the exception
value `'admin'` still has the condition set evaluate to SATISFIED (`true`),
so the deny policy matches the admin and `evaluateAccess` denies the
request citing `deny-restricted-default` — the `unless` branch returns
`true` (and the fall-through also returns `true`), so it never negates the
condition set as the claim states. -/
theorem unless_clause_does_not_negate :
    evaluateConditions 10 denyRestrictedDefault.conditions
        (mkFullContext adminRestrictedRequest) = true ∧
    (evaluateAccess 10 "2024-01-01T00:00:00Z" initialEngine adminRestrictedRequest).1 =
      { allowed := false, reason := "Deny access to restricted data by default",
        policy := some "deny-restricted-default" } := by
  constructor
  · rfl
  · rfl

/-!  ## C3 — unauthenticated session fast-path -/

/-- C3: with no authenticated subject, the session-level `canAccess`
returns the decision `allowed = false` with the specific reason
`"User not authenticated"` immediately: the engine state (hence its policy
store and audit log) and the session state are returned untouched, so no
policy matching or logging occurs, and the result is a `Decision` value —
the function is total and never throws. -/
theorem unauthenticated_immediate_deny (hour : Int) (nowISO : String)
    (engine : EngineState) (sess : SessionState) (resourceType resourceOwnerId : Atom)
    (action : String) (options : AccessOptions) (h : sess.currentUser = none) :
    sessionCanAccess hour nowISO engine sess resourceType resourceOwnerId action options =
      ({ allowed := false, reason := "User not authenticated", policy := none },
       engine, sess) := by
  simp [sessionCanAccess, h]

/-- C3 witness: a concrete unauthenticated session. -/
theorem unauthenticated_immediate_deny_witness :
    ({ currentUser := none, permissions := [], accessLog := [] } : SessionState).currentUser = none ∧
    sessionCanAccess 10 "2024-01-01T00:00:00Z" initialEngine
        { currentUser := none, permissions := [], accessLog := [] }
        (.str "patient_record") (.str "P1") "read" {} =
      ({ allowed := false, reason := "User not authenticated", policy := none },
       initialEngine, { currentUser := none, permissions := [], accessLog := [] }) :=
  ⟨rfl, unauthenticated_immediate_deny 10 "2024-01-01T00:00:00Z" initialEngine
    { currentUser := none, permissions := [], accessLog := [] }
    (.str "patient_record") (.str "P1") "read" {} rfl⟩

/-!  ## C6 — no matching policy ⇒ default deny -/

/-- C6: whenever no policy in the store matches the request, the decision
is `allowed = false` with no policy id and the reason
`"No matching policy found"`. -/
theorem no_match_default_deny (hour : Int) (nowISO : String) (st : EngineState)
    (req : Request) (h : matchedPolicies hour st req = []) :
    (evaluateAccess hour nowISO st req).1 =
      { allowed := false, reason := "No matching policy found", policy := none } := by
  rw [evaluateAccess_fst, h]
  rfl

/-- C6 witness — exactly the spec's concrete scenario 2: with only the
`patient-own-records` policy loaded, subject `{id:"D1", role:"doctor"}`
reading a `patient_record` owned by `"P1"` with no permission granted
matches nothing and yields the default-deny decision. -/
theorem no_match_default_deny_witness :
    matchedPolicies 10 scenario2Store scenario2Request = [] ∧
    (evaluateAccess 10 "2024-01-01T00:00:00Z" scenario2Store scenario2Request).1 =
      { allowed := false, reason := "No matching policy found", policy := none } :=
  ⟨rfl, no_match_default_deny 10 "2024-01-01T00:00:00Z" scenario2Store scenario2Request rfl⟩

/-!  ## C10 — explicit PUBLIC sensitivity is coerced to INTERNAL -/

/-- C10: a resource explicitly declaring sensitivity PUBLIC (the number 0)
produces an evaluation context whose `resourceSensitivity` is INTERNAL
(the number 1), because `resource.sensitivity || SENSITIVITY.INTERNAL`
replaces the falsy value 0; consequently the full context is identical to
the one built for the same request with sensitivity INTERNAL, so condition
evaluation treats the explicitly-PUBLIC resource as INTERNAL. -/
theorem public_sensitivity_coerced_to_internal (req reqInternal : Request)
    (h0 : req.resource.lookup "sensitivity" = some (.num 0))
    (h1 : reqInternal.resource.lookup "sensitivity" = some (.num 1))
    (hsub : reqInternal.subject = req.subject)
    (hown : reqInternal.resource.lookup "ownerId" = req.resource.lookup "ownerId")
    (hpat : reqInternal.resource.lookup "patientId" = req.resource.lookup "patientId")
    (hperm : reqInternal.permissionGranted = req.permissionGranted)
    (hemer : reqInternal.isEmergency = req.isEmergency) :
    (mkFullContext req).resourceSensitivity = .num 1 ∧
    mkFullContext req = mkFullContext reqInternal := by
  constructor
  · simp [mkFullContext, h0, jsOrDefault, Atom.truthy]
  · simp [mkFullContext, Context.mk.injEq, subjectIdOf, h0, h1, hsub, hown, hpat,
      hperm, hemer, jsOrDefault, Atom.truthy]

/-- C10 witness: a concrete explicitly-PUBLIC resource request and its
INTERNAL twin. -/
theorem public_sensitivity_coerced_to_internal_witness :
    (mkFullContext
        { subject := [("id", .str "P1"), ("role", .str "patient")]
          resource := [("type", .str "patient_record"), ("ownerId", .str "P1"),
                       ("sensitivity", .num 0)]
          action := "read" }).resourceSensitivity = .num 1 ∧
    mkFullContext
        { subject := [("id", .str "P1"), ("role", .str "patient")]
          resource := [("type", .str "patient_record"), ("ownerId", .str "P1"),
                       ("sensitivity", .num 0)]
          action := "read" } =
      mkFullContext
        { subject := [("id", .str "P1"), ("role", .str "patient")]
          resource := [("type", .str "patient_record"), ("ownerId", .str "P1"),
                       ("sensitivity", .num 1)]
          action := "read" } :=
  public_sensitivity_coerced_to_internal _ _ rfl rfl rfl rfl rfl rfl rfl

/-!  ## C1 — deny-overrides picks the first matching deny in store order -/

/-- C1: when the matched-policy set contains at least one policy with
effect `deny` and at least one with effect `allow`, the decision has
`allowed = false` and reports the policy id and reason (description) of
the first matching deny policy in Policy Store insertion order: `d` is a
matching deny policy and no policy before it in the store both matches and
has effect deny. -/
theorem deny_overrides_first_deny (hour : Int) (nowISO : String)
    (st : EngineState) (req : Request) (d : Policy) (pre post : List Policy)
    (hsplit : st.policies = pre ++ d :: post)
    (hmatch : policyMatches hour req (mkFullContext req) d = true)
    (hdeny : d.effect = "deny")
    (hfirst : ∀ p ∈ pre, policyMatches hour req (mkFullContext req) p = true →
      p.effect ≠ "deny")
    (_hallow : ∃ a ∈ matchedPolicies hour st req, a.effect = "allow") :
    (evaluateAccess hour nowISO st req).1 =
      { allowed := false, reason := d.description, policy := some d.id } := by
  rw [evaluateAccess_fst]
  have hm : matchedPolicies hour st req =
      pre.filter (policyMatches hour req (mkFullContext req)) ++
        d :: post.filter (policyMatches hour req (mkFullContext req)) := by
    rw [matchedPolicies, hsplit, List.filter_append, List.filter_cons, hmatch]
    simp
  have hpre : List.find? (fun p => p.effect = "deny")
      (pre.filter (policyMatches hour req (mkFullContext req))) = none := by
    apply List.find?_eq_none.mpr
    intro p hp
    have hmem := (List.mem_filter.mp hp)
    simpa using hfirst p hmem.1 hmem.2
  have hfind : List.find? (fun p => p.effect = "deny")
      (matchedPolicies hour st req) = some d := by
    rw [hm, List.find?_append, hpre, Option.none_or,
      List.find?_cons_of_pos _ (by simpa using hdeny)]
  rw [combineDecision, hfind]

/-- C1 witness: a store whose two policies both match every request — an
allow first, a deny second — denies with the deny policy's id and reason. -/
theorem deny_overrides_first_deny_witness :
    policyMatches 10
        { subject := [("id", .str "P1")],
          resource := [("type", .str "patient_record")], action := "read" }
        (mkFullContext
          { subject := [("id", .str "P1")],
            resource := [("type", .str "patient_record")], action := "read" })
        denyEverything = true ∧
    (∃ a ∈ matchedPolicies 10
        { policies := [allowEverything, denyEverything], auditLog := [] }
        { subject := [("id", .str "P1")],
          resource := [("type", .str "patient_record")], action := "read" },
      a.effect = "allow") ∧
    (evaluateAccess 10 "2024-01-01T00:00:00Z"
        { policies := [allowEverything, denyEverything], auditLog := [] }
        { subject := [("id", .str "P1")],
          resource := [("type", .str "patient_record")], action := "read" }).1 =
      { allowed := false, reason := "deny everything",
        policy := some "deny-everything" } :=
  ⟨rfl, ⟨allowEverything, by decide, rfl⟩,
    deny_overrides_first_deny 10 "2024-01-01T00:00:00Z"
      { policies := [allowEverything, denyEverything], auditLog := [] }
      { subject := [("id", .str "P1")],
        resource := [("type", .str "patient_record")], action := "read" }
      denyEverything [allowEverything] [] rfl rfl rfl
      (by decide) ⟨allowEverything, by decide, rfl⟩⟩

/-!  ## C8 — commit-then-verify round trip -/

/-- C8 counterexample: the round trip fails for the empty salt.  Because
the source computes `blindingFactor || generateBlindingFactor()`, a
supplied empty-string salt is falsy and is silently replaced by a fresh
random one, so verification replays the hash of a different preimage
(`"a||"` versus `"a||bf"`).  Instantiating the abstract digest function at
any function separating those two preimages — here the identity, and
SHA-256 separates them unless it collides — refutes the claim's "for all
values v and all salts s". -/
theorem commit_roundtrip_fails_on_empty_salt :
    verifyCommitment (fun x => x) "a" ""
        (createCommitment (fun x => x) "bf" "a" (some "")).commitment = false ∧
    (createCommitment (fun x => x) "bf" "a" (some "")).blindingFactor = "bf" := by
  constructor
  · rfl
  · rfl

/-- C8 (amended to nonempty salts): for every digest function `H`, every
value and every nonempty salt, verifying the commitment produced from that
value and salt with the replayed value and salt succeeds. -/
theorem commit_roundtrip_nonempty_salt (H : String → String)
    (fresh value salt : String) (h : salt ≠ "") :
    verifyCommitment H value salt
      (createCommitment H fresh value (some salt)).commitment = true := by
  simp [createCommitment, verifyCommitment, h]

/-- C8 witness: concrete round trip with value `"a"` and salt `"b"`. -/
theorem commit_roundtrip_nonempty_salt_witness :
    ("b" : String) ≠ "" ∧
    verifyCommitment (fun x => x) "a" "b"
      (createCommitment (fun x => x) "f" "a" (some "b")).commitment = true :=
  ⟨by decide, commit_roundtrip_nonempty_salt (fun x => x) "f" "a" "b" (by decide)⟩

/-!  ## C9 — proof freshness truthiness corner -/

/-- C9 counterexample: a proof object carrying `timestamp: 0` and a far
future explicit `expiresAt` has a timestamp and is not past its expiry, so
the claim's case split makes it valid — but the source's falsy check
`!proof.timestamp` rejects the value 0, so `isProofValid` returns false. -/
theorem proof_validity_zero_timestamp_counterexample :
    isProofValid 5 (some { timestamp := some 0, expiresAt := some 9999999 }) = false ∧
    isProofValidSpec 5 (some { timestamp := some 0, expiresAt := some 9999999 }) = true := by
  constructor
  · rfl
  · rfl

/-- C9 (amended for JS falsiness): `isProofValid` coincides everywhere
with the amended case split — invalid when the timestamp is absent or
zero; a nonzero explicit `expiresAt` strictly in the past is invalid; an
absent or zero `expiresAt` falls back to the one-hour window from the
timestamp; everything else is valid.  Staleness is reported as `false`,
never thrown: the function is total. -/
theorem proof_validity_matches_amended (now : Nat) (proof : Option ZKProof) :
    isProofValid now proof = isProofValidAmended now proof := by
  cases proof with
  | none => rfl
  | some p =>
      obtain ⟨ts, ex⟩ := p
      cases ts with
      | none => rfl
      | some t =>
          cases ex with
          | none =>
              by_cases ht : t = 0 <;> by_cases hw : 3600000 < now - t <;>
                simp [isProofValid, isProofValidAmended, natTruthy, ht, hw] <;> omega
          | some e =>
              by_cases ht : t = 0 <;> by_cases he : e = 0 <;>
                by_cases hw : e < now <;> by_cases hw2 : 3600000 < now - t <;>
                  simp [isProofValid, isProofValidAmended, natTruthy, ht, he, hw, hw2] <;>
                    omega

/-!  ## C4 — revoke semantics -/

/-- C4 counterexample: with an active grantor and no permission relation,
the contract's `revokePermission` reverts with `"Permission not found"`
instead of silently returning false; and the session-level
`revokePermission` with no relation stored returns `true` (not false). -/
theorem revoke_missing_relation_counterexample :
    revokePermission contractFixture "P1" "D1" =
      Except.error "Permission not found" ∧
    sessionRevokePermission authSession "D1" = (true, authSession) := by
  constructor
  · rfl
  · rfl

/-- C4 (amended): on the contract, revoking with an active grantor but no
granted relation reverts with `"Permission not found"`; revoking a granted
relation rewrites it with `granted = false`, keeping the relation record
(its other fields unchanged).  The session-level `revokePermission`
returns false (leaving the state unchanged) only when no user is
authenticated; when authenticated it returns true and physically deletes
the permissions binding. -/
theorem revoke_amended :
    (∀ st p d, (getUser st p).isActive = true →
        (getPerm st p d).granted = false →
        revokePermission st p d = Except.error "Permission not found") ∧
    (∀ st p d, (getUser st p).isActive = true →
        (getPerm st p d).granted = true →
        revokePermission st p d =
          Except.ok (setPerm st p d { getPerm st p d with granted := false })) ∧
    (∀ sess t, sess.currentUser = none →
        sessionRevokePermission sess t = (false, sess)) ∧
    (∀ sess u t, sess.currentUser = some u →
        (sessionRevokePermission sess t).1 = true ∧
        ((sessionRevokePermission sess t).2.permissions.lookup (permKey u t)) = none) := by
  refine ⟨?_, ?_, ?_, ?_⟩
  · intro st p d h1 h2
    simp [revokePermission, h1, h2]
  · intro st p d h1 h2
    simp [revokePermission, h1, h2]
  · intro sess t h
    simp [sessionRevokePermission, h]
  · intro sess u t h
    simp only [sessionRevokePermission, h]
    exact ⟨by simp, lookup_filter_key_eq_none _ _⟩

/-- C4 witness: each amended case at a concrete state — missing relation
reverts, granted relation is rewritten in place, unauthenticated session
revoke returns false, authenticated session revoke returns true with the
binding removed. -/
theorem revoke_amended_witness :
    revokePermission contractFixture "P1" "D1" =
      Except.error "Permission not found" ∧
    revokePermission contractWithGrant "P1" "D1" =
      Except.ok (setPerm contractWithGrant "P1" "D1"
        { getPerm contractWithGrant "P1" "D1" with granted := false }) ∧
    sessionRevokePermission { currentUser := none, permissions := [("P1:D1", true)], accessLog := [] } "D1" =
      (false, { currentUser := none, permissions := [("P1:D1", true)], accessLog := [] }) ∧
    (sessionRevokePermission
        { authSession with permissions := [("P1:D1", true)] } "D1").1 = true ∧
    ((sessionRevokePermission
        { authSession with permissions := [("P1:D1", true)] } "D1").2.permissions.lookup
      (permKey [("hhNumber", .str "P1"), ("role", .str "patient")] "D1")) = none :=
  ⟨revoke_amended.1 contractFixture "P1" "D1" (by decide) (by decide),
   revoke_amended.2.1 contractWithGrant "P1" "D1" (by decide) (by decide),
   revoke_amended.2.2.1 _ "D1" rfl,
   (revoke_amended.2.2.2 { authSession with permissions := [("P1:D1", true)] }
      [("hhNumber", .str "P1"), ("role", .str "patient")] "D1" rfl).1,
   (revoke_amended.2.2.2 { authSession with permissions := [("P1:D1", true)] }
      [("hhNumber", .str "P1"), ("role", .str "patient")] "D1" rfl).2⟩

/-!  ## C5 — permission validity and the expiry boundary -/

/-- C5 counterexample: after `grant("P1","D1",60)` at block time 1000 the
permission carries `expiresAt = 1060`; at block time 1060 — the clock
advanced exactly 60 seconds past the grant — `isPermissionValid` is still
`true`, because the source invalidates only when `block.timestamp >
expiresAt` (strict).  The claim's "false once the clock has advanced 60 or
more seconds past the grant" is therefore false at this input; at 1061 the
permission is expired. -/
theorem expiry_boundary_counterexample :
    (grantPermissionZK contractFixture 1000 "P1" "D1" 60 "pf").map
        (fun st => isPermissionValid st 1060 "P1" "D1") = Except.ok true ∧
    (grantPermissionZK contractFixture 1000 "P1" "D1" 60 "pf").map
        (fun st => isPermissionValid st 1061 "P1" "D1") = Except.ok false := by
  constructor
  · rfl
  · rfl

/-- C5 (amended): `isPermissionValid` is false when no relation exists,
false when `granted = false`, false when `expiresAt` is set (nonzero) and
strictly in the past (`now > expiresAt`), and true otherwise; after a
successful `grant(grantor, grantee, 60)` at time `t` it is true at `t`
and false at every time strictly more than 60 seconds past the grant,
with no revoke call. -/
theorem permission_validity_amended :
    (∀ st now p d, (∀ kv ∈ st.permissions, kv.1 ≠ (p, d)) →
        isPermissionValid st now p d = false) ∧
    (∀ st now p d, (getPerm st p d).granted = false →
        isPermissionValid st now p d = false) ∧
    (∀ st now p d, (getPerm st p d).expiresAt ≠ 0 →
        (getPerm st p d).expiresAt < now →
        isPermissionValid st now p d = false) ∧
    (∀ st now p d, (getPerm st p d).granted = true →
        ((getPerm st p d).expiresAt = 0 ∨ now ≤ (getPerm st p d).expiresAt) →
        isPermissionValid st now p d = true) ∧
    (∀ st t p d pr st', grantPermissionZK st t p d 60 pr = Except.ok st' →
        isPermissionValid st' t p d = true ∧
        ∀ t', t + 60 < t' → isPermissionValid st' t' p d = false) := by
  refine ⟨?_, ?_, ?_, ?_, ?_⟩
  · intro st now p d h
    have hfind : st.permissions.find? (fun kv => kv.1 = (p, d)) = none :=
      List.find?_eq_none.mpr (fun kv hkv => by simpa using h kv hkv)
    simp [isPermissionValid, getPerm, hfind]
  · intro st now p d h
    simp [isPermissionValid, h]
  · intro st now p d h1 h2
    cases hg : (getPerm st p d).granted <;>
      simp [isPermissionValid, hg, h2, Nat.pos_of_ne_zero h1]
  · intro st now p d hg hexp
    rcases hexp with he | hle
    · simp [isPermissionValid, hg, he]
    · simp [isPermissionValid, hg]
      omega
  · intro st t p d pr st' h
    unfold grantPermissionZK at h
    split at h
    · simp at h
    · split at h
      · simp at h
      · split at h
        · simp at h
        · simp only [Except.ok.injEq] at h
          subst h
          constructor
          · simp [isPermissionValid, getPerm_setPerm]
          · intro t' ht'
            simp [isPermissionValid, getPerm_setPerm]
            omega

/-- C5 witness: every amended case at concrete contract states — missing
relation, revoked relation, expired relation, live relation, and the
grant-then-expire round trip. -/
theorem permission_validity_amended_witness :
    isPermissionValid contractFixture 5 "P1" "D1" = false ∧
    isPermissionValid contractRevoked 1000 "P1" "D1" = false ∧
    isPermissionValid contractWithGrant 2000 "P1" "D1" = false ∧
    isPermissionValid contractWithGrant 1000 "P1" "D1" = true ∧
    isPermissionValid contractWithGrant 1061 "P1" "D1" = false :=
  ⟨permission_validity_amended.1 contractFixture 5 "P1" "D1" (by simp [contractFixture]),
   permission_validity_amended.2.1 contractRevoked 1000 "P1" "D1" (by decide),
   permission_validity_amended.2.2.1 contractWithGrant 2000 "P1" "D1" (by decide) (by decide),
   permission_validity_amended.2.2.2.1 contractWithGrant 1000 "P1" "D1" (by decide)
     (Or.inr (by decide)),
   (permission_validity_amended.2.2.2.2 contractFixture 1000 "P1" "D1" "pf"
      contractWithGrant (by rfl)).2 1061 (by decide)⟩

/-!  ## C7 — audit log retention -/

/-- Iterating authenticated session calls: the user stays authenticated,
the engine audit log grows by one entry per call without bound, and the
session access log length is `min n 100`. -/
theorem stepSession_iterate (n : Nat) :
    ((stepSession^[n]) initialIterationState).2.currentUser = authSession.currentUser ∧
    ((stepSession^[n]) initialIterationState).1.auditLog.length = n ∧
    ((stepSession^[n]) initialIterationState).2.accessLog.length = min n 100 := by
  induction n with
  | zero => simp [initialIterationState, authSession]
  | succ k ih =>
      obtain ⟨hu, he, hs⟩ := ih
      rw [Function.iterate_succ_apply']
      have hu' : ((stepSession^[k]) initialIterationState).2.currentUser =
          some [("hhNumber", .str "P1"), ("role", .str "patient")] := by
        rw [hu]; rfl
      refine ⟨?_, ?_, ?_⟩
      · simp [stepSession, sessionCanAccess, hu', authSession]
      · simp [stepSession, sessionCanAccess, hu', evaluateAccess, he]
      · simp [stepSession, sessionCanAccess, hu', lastN, hs]
        omega

/-- C7 counterexample: after 101 authenticated requests from empty logs
the engine audit log holds 101 entries — it exceeds the only configured
capacity in the system (the session log's 100) and is never evicted, while
the session-level access log has been capped at 100. -/
theorem engine_audit_unbounded_counterexample :
    ((stepSession^[101]) initialIterationState).1.auditLog.length = 101 ∧
    ((stepSession^[101]) initialIterationState).2.accessLog.length = 100 ∧
    ¬(101 ≤ 100) :=
  ⟨(stepSession_iterate 101).2.1, by
    have h := (stepSession_iterate 101).2.2
    omega, by decide⟩

/-- C7 (amended): every evaluated request appends exactly one entry to the
engine audit log, which is unbounded — after `n` authenticated calls it
holds `n` entries, never evicted; the session-level access log is the
bounded one: each authenticated call leaves it with at most 100 entries,
the kept prefix being a suffix of the previous log (oldest evicted first,
insertion order preserved), followed by the new entry. -/
theorem audit_retention_amended :
    (∀ hour nowISO st req,
        (evaluateAccess hour nowISO st req).2.policies = st.policies ∧
        ∃ e, (evaluateAccess hour nowISO st req).2.auditLog = st.auditLog ++ [e]) ∧
    (∀ hour nowISO engine sess resourceType resourceOwnerId action options u,
        sess.currentUser = some u →
        ((sessionCanAccess hour nowISO engine sess resourceType resourceOwnerId
            action options).2.2).accessLog.length ≤ 100 ∧
        (∃ e, ((sessionCanAccess hour nowISO engine sess resourceType resourceOwnerId
            action options).2.2).accessLog = lastN 99 sess.accessLog ++ [e]) ∧
        lastN 99 sess.accessLog <:+ sess.accessLog ∧
        (∃ e, ((sessionCanAccess hour nowISO engine sess resourceType resourceOwnerId
            action options).2.1).auditLog = engine.auditLog ++ [e])) ∧
    (∀ n, ((stepSession^[n]) initialIterationState).1.auditLog.length = n) := by
  refine ⟨?_, ?_, fun n => (stepSession_iterate n).2.1⟩
  · intro hour nowISO st req
    exact ⟨rfl, _, rfl⟩
  · intro hour nowISO engine sess resourceType resourceOwnerId action options u h
    simp only [sessionCanAccess, h]
    refine ⟨?_, ⟨_, rfl⟩, ?_, ⟨_, rfl⟩⟩
    · simp [lastN]
      omega
    · simpa [lastN] using List.drop_suffix _ _

/-- C7 witness: the amended facts at concrete inputs — one audit entry
appended by a concrete evaluation, the concrete bounded session append,
and the engine log length after three iterated calls. -/
theorem audit_retention_amended_witness :
    ((evaluateAccess 10 "2024-01-01T00:00:00Z" scenario2Store scenario2Request).2.policies
        = scenario2Store.policies ∧
      ∃ e, (evaluateAccess 10 "2024-01-01T00:00:00Z" scenario2Store scenario2Request).2.auditLog
        = scenario2Store.auditLog ++ [e]) ∧
    (((sessionCanAccess 10 "2024-01-01T00:00:00Z" initialEngine authSession
        (.str "patient_record") (.str "P1") "read" {}).2.2).accessLog.length ≤ 100) ∧
    ((stepSession^[3]) initialIterationState).1.auditLog.length = 3 :=
  ⟨(audit_retention_amended.1 10 "2024-01-01T00:00:00Z" scenario2Store scenario2Request),
   (audit_retention_amended.2.1 10 "2024-01-01T00:00:00Z" initialEngine authSession
      (.str "patient_record") (.str "P1") "read" {}
      [("hhNumber", .str "P1"), ("role", .str "patient")] rfl).1,
   audit_retention_amended.2.2 3⟩

end Medichain
